import Mathlib

/-
Shallow embedding of the MSA300 accelerometer driver (src/src/MSA300.cpp).
The driver is a flat register-access layer: every public operation reads or
writes a handful of 8-bit registers through a narrow transport interface and
keeps a small cache (range, resolution, mode, conversion multiplier) in the
device handle.  The transport is modelled as a register bank, a total map
from register names to their current contents; a bus write is a pointwise
update of that map.  The header MSA300.h is not part of the sources, so
register addresses are abstracted into names and the numeric enum constants
it defines are modelled from the spec where that is noted below.
Float arithmetic of the source is modelled as exact rational arithmetic.
-/

namespace MSA300

/-- Register names of the MSA300 register map used by the driver.  The header
with the numeric addresses is absent from the sources, so registers are
identified by name; each constructor corresponds to one `MSA300_REG_*`
constant used by MSA300.cpp.  The three acceleration entries stand for the
16-bit little-endian register pairs read by `read16`. -/
inductive Reg where
  | PARTID
  | RES_RANGE
  | PWR_MODE_BW
  | BW_RATE
  | ODR
  | INT_LATCH
  | INT_SET_0
  | INT_SET_1
  | INT_MAP_0
  | INT_MAP_1
  | INT_MAP_2_1
  | INT_MAP_2_2
  | MOTION_INT
  | DATA_INT
  | TAP_ACTIVE_STATUS
  | ORIENT_STATUS
  | FREEFALL_DUR
  | FREEFALL_TH
  | FREEFALL_HY
  | ACTIVE_DUR
  | ACTIVE_TH
  | TAP_TH
  | TAP_DUR
  | SWAP_POLARITY
  | ORIENT_HY
  | Z_BLOCK
  | OFFSET_X
  | OFFSET_Y
  | OFFSET_Z
  | ACC_X
  | ACC_Y
  | ACC_Z
  deriving DecidableEq

/-- The device register file: one byte value per register (the acceleration
entries hold the full 16-bit word delivered by `read16`). -/
def Bank := Reg → Nat

/-- `readRegister` of the transport adapter, restricted to its effect on the
register bank. -/
def readRegister (b : Bank) (reg : Reg) : Nat := b reg

/-- `writeRegister` of the transport adapter: update one register, leave the
rest of the bank untouched. -/
def writeRegister (b : Bank) (reg : Reg) (value : Nat) : Bank :=
  fun r => if r = reg then value else b r

/-- `read16`: the 16-bit little-endian word at an acceleration register pair. -/
def readRegister16 (b : Bank) (reg : Reg) : Nat := b reg

/-- A register bank with every register zero. -/
def zeroBank : Bank := fun _ => 0

/-- Two's-complement reading of a 16-bit word, the value of the `int16_t`
returned by `read16`. -/
def toInt16 (w : Nat) : Int :=
  if w % 65536 < 32768 then (w % 65536 : Int) else (w % 65536 : Int) - 65536

/-- `range_t`: the four full-scale ranges. -/
inductive range_t where
  | RANGE_2_G
  | RANGE_4_G
  | RANGE_8_G
  | RANGE_16_G
  deriving DecidableEq

/-- Modelled from the spec: the numeric `range_t` enumerator values of the
absent header; the range field is the low 2 bits of the resolution/range
register (`setRange` clears `0x3`), so the codes are the four 2-bit values. -/
def range_t.code : range_t → Nat
  | .RANGE_2_G => 0x0
  | .RANGE_4_G => 0x1
  | .RANGE_8_G => 0x2
  | .RANGE_16_G => 0x3

/-- `res_t`: the four measurement resolutions. -/
inductive res_t where
  | RES_14_BIT
  | RES_12_BIT
  | RES_10_BIT
  | RES_8_BIT
  deriving DecidableEq

/-- Modelled from the spec: the numeric `res_t` enumerator values of the
absent header; the resolution field is bits 2..3 of the resolution/range
register (`setResolution` clears `0xC`), so the codes lie inside `0xC`. -/
def res_t.code : res_t → Nat
  | .RES_14_BIT => 0x0
  | .RES_12_BIT => 0x4
  | .RES_10_BIT => 0x8
  | .RES_8_BIT => 0xC

/-- `pwrMode_t`: the power modes. -/
inductive pwrMode_t where
  | NORMAL
  | LOW_POWER
  | SUSPEND
  deriving DecidableEq

/-- Modelled from the spec: the numeric `pwrMode_t` enumerator values of the
absent header; the mode field sits at bit offset 6 of the power/bandwidth
register (`setMode` clears `0xC0`), so the codes lie inside `0xC0`. -/
def pwrMode_t.code : pwrMode_t → Nat
  | .NORMAL => 0x00
  | .LOW_POWER => 0x40
  | .SUSPEND => 0xC0

/-- Modelled from the spec: `dataRate_t` is a 4-bit output-data-rate code
(the output-data-rate register has a 4-bit field and `getDataRate` masks
with `0x0F`). -/
abbrev dataRate_t := Fin 16

/-- Modelled from the spec: `intMode_t` is a 4-bit interrupt latch mode code
(the latch-control register has a 4-bit mode field next to the self-clearing
reset bit, which `resetInterrupt` places at bit 7). -/
abbrev intMode_t := Fin 16

/-- `axis_t`: axis selector for the axis-scoped operations. -/
inductive axis_t where
  | AXIS_X
  | AXIS_Y
  | AXIS_Z
  deriving DecidableEq

/-- `pol_t`: polarity selector for `swapPolarity`. -/
inductive pol_t where
  | POL_X
  | POL_Y
  | POL_Z
  deriving DecidableEq

/-- Modelled from the spec: the numeric `pol_t` enumerator values of the
absent header, used directly as the shift amount in `reg ^= (1 << polarity)`. -/
def pol_t.bit : pol_t → Nat
  | .POL_X => 0
  | .POL_Y => 1
  | .POL_Z => 2

/-- Modelled from the spec: `MSA300_MG2G_MULTIPLIER_2_G` of the absent
header, the LSB-to-g conversion constant for the 2 g range of the 14-bit
sensor.  The claims depend only on the range-to-constant association, not on
the numeric value. -/
def MG2G_MULTIPLIER_2_G : ℚ := 1 / 4096

/-- Modelled from the spec: `MSA300_MG2G_MULTIPLIER_4_G` of the absent header. -/
def MG2G_MULTIPLIER_4_G : ℚ := 1 / 2048

/-- Modelled from the spec: `MSA300_MG2G_MULTIPLIER_8_G` of the absent header. -/
def MG2G_MULTIPLIER_8_G : ℚ := 1 / 1024

/-- Modelled from the spec: `MSA300_MG2G_MULTIPLIER_16_G` of the absent header. -/
def MG2G_MULTIPLIER_16_G : ℚ := 1 / 512

/-- The conversion-multiplier table keyed by range, as the spec documents it:
one fixed constant per full-scale range. -/
def multiplierOf : range_t → ℚ
  | .RANGE_2_G => MG2G_MULTIPLIER_2_G
  | .RANGE_4_G => MG2G_MULTIPLIER_4_G
  | .RANGE_8_G => MG2G_MULTIPLIER_8_G
  | .RANGE_16_G => MG2G_MULTIPLIER_16_G

/-- Modelled from the spec: the `GRAVITY` constant of the absent header,
standard gravity. -/
def GRAVITY : ℚ := 980665 / 100000

/-- Modelled from the spec: `MSA300_DATARATE_1000_HZ` of the absent header,
a 4-bit output-data-rate code.  No claim depends on its numeric value. -/
def MSA300_DATARATE_1000_HZ : Nat := 0xF

/-- Modelled from the spec: the `clamp<T>(v, lo, hi)` helper the setters use,
saturating `v` to the closed interval `[lo, hi]`. -/
def clampNat (v lo hi : Nat) : Nat := min (max v lo) hi

/-- The cached interpretation state of one device handle: the `_sensorID`,
`_i2c`, `_range`, `_multiplier`, `_res`, `_mode` members of the class plus
the four SPI pin numbers.  A member that a constructor leaves uninitialized
is `none`; it becomes `some v` exactly when some member function assigns it. -/
structure State where
  sensorID : Int
  i2c : Bool
  range : range_t
  multiplier : Option ℚ
  res : Option res_t
  mode : Option pwrMode_t
  pinCs : Option Nat
  pinClk : Option Nat
  pinDo : Option Nat
  pinDi : Option Nat

/-- The I2C constructor `MSA300::MSA300(int32_t)`: sets `_sensorID`,
`_range` and `_i2c` and nothing else; in particular `_multiplier` is left
uninitialized. -/
def mkI2C (sensorID : Int) : State :=
  { sensorID := sensorID
    i2c := true
    range := .RANGE_2_G
    multiplier := none
    res := none
    mode := none
    pinCs := none
    pinClk := none
    pinDo := none
    pinDi := none }

/-- The SPI constructor `MSA300::MSA300(uint8_t,uint8_t,uint8_t,uint8_t,int32_t)`:
sets `_sensorID`, `_range`, `_multiplier`, the four pins and `_i2c`. -/
def mkSPI (clock miso mosi cs : Nat) (sensorID : Int) : State :=
  { sensorID := sensorID
    i2c := false
    range := .RANGE_2_G
    multiplier := some MG2G_MULTIPLIER_2_G
    res := none
    mode := none
    pinCs := some cs
    pinClk := some clock
    pinDo := some mosi
    pinDi := some miso }

/-- `MSA300::begin`: reads the part-ID register and fails (writing nothing)
when it differs from `0x00`, the identity constant the source compares
against; on success writes `0x14` to the power/bandwidth register and the
1000 Hz code to the output-data-rate register and reports success.  The
pin setup and the diagnostic serial print have no effect on the register
bank and are not modelled; the missing statement separator after the second
write in the source is read as an ordinary statement sequence. -/
def begin (b : Bank) : Bool × Bank :=
  let partid := readRegister b Reg.PARTID
  if partid ≠ 0x00 then
    (false, b)
  else
    let b := writeRegister b Reg.PWR_MODE_BW 0x14
    let b := writeRegister b Reg.ODR MSA300_DATARATE_1000_HZ
    (true, b)

/-- `MSA300::setRange`: read-modify-write of the low 2 bits of the
resolution/range register, then update of the cached `_range` and, by the
four-way switch of the source, the cached `_multiplier`. -/
def setRange (range : range_t) (s : State) (b : Bank) : State × Bank :=
  let format := readRegister b Reg.RES_RANGE
  let format := (format &&& 0xFC) ||| range.code
  let b := writeRegister b Reg.RES_RANGE format
  let s := { s with range := range }
  let s :=
    match range with
    | .RANGE_16_G => { s with multiplier := some MG2G_MULTIPLIER_16_G }
    | .RANGE_8_G => { s with multiplier := some MG2G_MULTIPLIER_8_G }
    | .RANGE_4_G => { s with multiplier := some MG2G_MULTIPLIER_4_G }
    | .RANGE_2_G => { s with multiplier := some MG2G_MULTIPLIER_2_G }
  (s, b)

/-- `MSA300::setResolution`: read-modify-write of bits 2..3 of the
resolution/range register, then update of the cached `_res`. -/
def setResolution (resolution : res_t) (s : State) (b : Bank) : State × Bank :=
  let format := readRegister b Reg.RES_RANGE
  let format := (format &&& 0xF3) ||| resolution.code
  let b := writeRegister b Reg.RES_RANGE format
  ({ s with res := some resolution }, b)

/-- `MSA300::setDataRate`: a plain write of the data-rate code to the
bandwidth/rate register, with no preceding read. -/
def setDataRate (dataRate : dataRate_t) (b : Bank) : Bank :=
  writeRegister b Reg.BW_RATE dataRate.val

/-- `MSA300::setMode`: read-modify-write of bits 6..7 of the power/bandwidth
register, then update of the cached `_mode`. -/
def setMode (mode : pwrMode_t) (s : State) (b : Bank) : State × Bank :=
  let format := readRegister b Reg.PWR_MODE_BW
  let format := (format &&& 0x3F) ||| mode.code
  let b := writeRegister b Reg.PWR_MODE_BW format
  ({ s with mode := some mode }, b)

/-- `MSA300::resetInterrupt`: set the self-clearing reset bit (bit 7) of the
latch-control register, preserving the rest. -/
def resetInterrupt (b : Bank) : Bank :=
  let reg := readRegister b Reg.INT_LATCH
  writeRegister b Reg.INT_LATCH (reg ||| (1 <<< 7))

/-- `MSA300::setInterruptLatch`: the source clears `0xF0` of the latch
register, so it keeps only the low nibble, and then ORs in the mode code. -/
def setInterruptLatch (mode : intMode_t) (b : Bank) : Bank :=
  let reg := readRegister b Reg.INT_LATCH
  let reg := (reg &&& 0x0F) ||| mode.val
  writeRegister b Reg.INT_LATCH reg

/-- `MSA300::clearInterrupts`: writes zero, unconditionally, to exactly the
five registers named in the source: both interrupt-enable registers and the
map registers `INT_MAP_0`, `INT_MAP_2_1` and `INT_MAP_2_2`. -/
def clearInterrupts (b : Bank) : Bank :=
  let b := writeRegister b Reg.INT_SET_0 0x00
  let b := writeRegister b Reg.INT_SET_1 0x00
  let b := writeRegister b Reg.INT_MAP_0 0x00
  let b := writeRegister b Reg.INT_MAP_2_1 0x00
  let b := writeRegister b Reg.INT_MAP_2_2 0x00
  b

/-- The `intStatus_t` tap/activity detail record of the interrupt snapshot. -/
structure intStatus_t where
  tapSign : Bool
  tapFirstX : Bool
  tapFirstY : Bool
  tapFirstZ : Bool
  activeSign : Bool
  activeFirstX : Bool
  activeFirstY : Bool
  activeFirstZ : Bool
  deriving DecidableEq

/-- The `interrupt_t` snapshot returned by `checkInterrupts`.  The detail
record is a member the source assigns only conditionally; `none` stands for
the member keeping its indeterminate initial value. -/
structure interrupt_t where
  orientInt : Bool
  sTapInt : Bool
  dTapInt : Bool
  activeInt : Bool
  freefallInt : Bool
  newdataInt : Bool
  intStatus : Option intStatus_t
  deriving DecidableEq

/-- `MSA300::checkInterrupts`: one read of each of the three status
registers, decode of the six top-level flags, and decode of the detail
record only when the active, single-tap or double-tap flag is set.  The
`interrups` spelling in the source is read as the `interrupts` local it
plainly names. -/
def checkInterrupts (b : Bank) : interrupt_t :=
  let motionReg := readRegister b Reg.MOTION_INT
  let dataReg := readRegister b Reg.DATA_INT
  let tapReg := readRegister b Reg.TAP_ACTIVE_STATUS
  let sTap := motionReg.testBit 5
  let dTap := motionReg.testBit 4
  let active := motionReg.testBit 2
  { orientInt := motionReg.testBit 6
    sTapInt := sTap
    dTapInt := dTap
    activeInt := active
    freefallInt := motionReg.testBit 0
    newdataInt := dataReg.testBit 0
    intStatus :=
      if active || sTap || dTap then
        some
          { tapSign := tapReg.testBit 7
            tapFirstX := tapReg.testBit 6
            tapFirstY := tapReg.testBit 5
            tapFirstZ := tapReg.testBit 4
            activeSign := tapReg.testBit 3
            activeFirstX := tapReg.testBit 2
            activeFirstY := tapReg.testBit 1
            activeFirstZ := tapReg.testBit 0 }
      else none }

/-- `MSA300::enableActiveInterrupt`: OR bit 2 into the map register selected
by the pin index (1 selects `INT_MAP_0`, 2 selects `INT_MAP_2_1`, anything
else leaves the maps alone), then OR the bit of the selected axis into the
enable register `INT_SET_0`. -/
def enableActiveInterrupt (axis : axis_t) (interrupt : Nat) (b : Bank) : Bank :=
  let b :=
    match interrupt with
    | 1 => writeRegister b Reg.INT_MAP_0 (readRegister b Reg.INT_MAP_0 ||| (1 <<< 2))
    | 2 => writeRegister b Reg.INT_MAP_2_1 (readRegister b Reg.INT_MAP_2_1 ||| (1 <<< 2))
    | _ => b
  let reg := readRegister b Reg.INT_SET_0
  let reg :=
    match axis with
    | .AXIS_X => reg ||| (1 <<< 0)
    | .AXIS_Y => reg ||| (1 <<< 1)
    | .AXIS_Z => reg ||| (1 <<< 2)
  writeRegister b Reg.INT_SET_0 reg

/-- `MSA300::enableFreefallInterrupt`: OR bit 0 into the map register
selected by the pin index, then OR bit 3 into `INT_SET_1`. -/
def enableFreefallInterrupt (interrupt : Nat) (b : Bank) : Bank :=
  let b :=
    match interrupt with
    | 1 => writeRegister b Reg.INT_MAP_0 (readRegister b Reg.INT_MAP_0 ||| (1 <<< 0))
    | 2 => writeRegister b Reg.INT_MAP_2_1 (readRegister b Reg.INT_MAP_2_1 ||| (1 <<< 0))
    | _ => b
  let reg := readRegister b Reg.INT_SET_1
  writeRegister b Reg.INT_SET_1 (reg ||| (1 <<< 3))

/-- `MSA300::enableOrientationInterrupt`: OR bit 6 into the map register
selected by the pin index, then OR bit 6 into `INT_SET_0`. -/
def enableOrientationInterrupt (interrupt : Nat) (b : Bank) : Bank :=
  let b :=
    match interrupt with
    | 1 => writeRegister b Reg.INT_MAP_0 (readRegister b Reg.INT_MAP_0 ||| (1 <<< 6))
    | 2 => writeRegister b Reg.INT_MAP_2_1 (readRegister b Reg.INT_MAP_2_1 ||| (1 <<< 6))
    | _ => b
  let reg := readRegister b Reg.INT_SET_0
  writeRegister b Reg.INT_SET_0 (reg ||| (1 <<< 6))

/-- `MSA300::enableSingleTapInterrupt`: OR bit 5 into the map register
selected by the pin index, then OR bit 5 into `INT_SET_0`. -/
def enableSingleTapInterrupt (interrupt : Nat) (b : Bank) : Bank :=
  let b :=
    match interrupt with
    | 1 => writeRegister b Reg.INT_MAP_0 (readRegister b Reg.INT_MAP_0 ||| (1 <<< 5))
    | 2 => writeRegister b Reg.INT_MAP_2_1 (readRegister b Reg.INT_MAP_2_1 ||| (1 <<< 5))
    | _ => b
  let reg := readRegister b Reg.INT_SET_0
  writeRegister b Reg.INT_SET_0 (reg ||| (1 <<< 5))

/-- `MSA300::enableDoubleTapInterrupt`: OR bit 4 into the map register
selected by the pin index, then OR bit 4 into `INT_SET_0`. -/
def enableDoubleTapInterrupt (interrupt : Nat) (b : Bank) : Bank :=
  let b :=
    match interrupt with
    | 1 => writeRegister b Reg.INT_MAP_0 (readRegister b Reg.INT_MAP_0 ||| (1 <<< 4))
    | 2 => writeRegister b Reg.INT_MAP_2_1 (readRegister b Reg.INT_MAP_2_1 ||| (1 <<< 4))
    | _ => b
  let reg := readRegister b Reg.INT_SET_0
  writeRegister b Reg.INT_SET_0 (reg ||| (1 <<< 4))

/-- `MSA300::enableNewDataInterrupt`: both pin indices select the same map
register `INT_MAP_1` (bit 0 for pin 1, bit 7 for pin 2), then OR bit 4 into
`INT_SET_1`. -/
def enableNewDataInterrupt (interrupt : Nat) (b : Bank) : Bank :=
  let b :=
    match interrupt with
    | 1 => writeRegister b Reg.INT_MAP_1 (readRegister b Reg.INT_MAP_1 ||| (1 <<< 0))
    | 2 => writeRegister b Reg.INT_MAP_1 (readRegister b Reg.INT_MAP_1 ||| (1 <<< 7))
    | _ => b
  let reg := readRegister b Reg.INT_SET_1
  writeRegister b Reg.INT_SET_1 (reg ||| (1 <<< 4))

/-- `MSA300::swapPolarity`: XOR-toggle of the single bit selected by the
polarity argument in the polarity-swap register. -/
def swapPolarity (polarity : pol_t) (b : Bank) : Bank :=
  let reg := readRegister b Reg.SWAP_POLARITY
  writeRegister b Reg.SWAP_POLARITY (reg ^^^ (1 <<< polarity.bit))

/-- `MSA300::setActiveDuration`: the source computes
`clamp<uint8_t>(duration - 1, 0, 4)` (the subtraction wraps modulo 256 when
converted back to `uint8_t`) and ORs it into a local `reg` it never
initializes; the local is read as starting at zero, so the clamped value
itself is written. -/
def setActiveDuration (duration : Nat) (b : Bank) : Bank :=
  let value := clampNat ((duration + 255) % 256) 0 4
  writeRegister b Reg.ACTIVE_DUR value

/-- `MSA300::setFreefallDuration`: clamp the millisecond argument to
`[2, 512]`, encode it as `duration / 2 - 1` (exact in float for this domain;
the cast to `uint8_t` truncates, which is Nat division here), clamp the
encoding to `[0, 256]`, and write it.  The uninitialized local `reg` the
encoding is ORed into is read as starting at zero. -/
def setFreefallDuration (duration : Nat) (b : Bank) : Bank :=
  let duration := clampNat duration 2 512
  let durF := min ((duration - 2) / 2) 256
  writeRegister b Reg.FREEFALL_DUR durF

/-- `MSA300::setFreefallHysteresis`: the hysteresis field is
`clamp<uint16_t>(value / 125, 0, 500)` and the written byte is
`((mode << 3) & ~0x3) | hysteresis` over a local `reg` the source never
initializes (read as starting at zero).  Modelled from the spec: the
register write in the source omits the value argument
(`writeRegister(MSA300_REG_FREEFALL_HY);`), and the spec resolves the
intended value as the encoded byte `reg`, which is what is written here. -/
def setFreefallHysteresis (mode value : Nat) (b : Bank) : Bank :=
  let hysteresis := clampNat (value / 125) 0 500
  let reg := (mode <<< 3) % 256
  let reg := reg &&& 0xFC
  let reg := reg ||| hysteresis
  writeRegister b Reg.FREEFALL_HY reg

/-- The `acc_t` acceleration sample in units of gravity, float members
modelled as exact rationals. -/
structure acc_t where
  x : ℚ
  y : ℚ
  z : ℚ
  deriving DecidableEq

/-- `MSA300::getX`: the signed 16-bit acceleration word of the X axis. -/
def getX (b : Bank) : Int := toInt16 (readRegister16 b Reg.ACC_X)

/-- `MSA300::getY`: the signed 16-bit acceleration word of the Y axis. -/
def getY (b : Bank) : Int := toInt16 (readRegister16 b Reg.ACC_Y)

/-- `MSA300::getZ`: the signed 16-bit acceleration word of the Z axis. -/
def getZ (b : Bank) : Int := toInt16 (readRegister16 b Reg.ACC_Z)

/-- `MSA300::getAcceleration`: clears the output struct and fills each axis
with `raw * _multiplier * GRAVITY`.  The result is `none` when the handle
was built by the I2C constructor and `setRange` never ran, since the
`_multiplier` member is then still uninitialized and the product has no
determinate value. -/
def getAcceleration (s : State) (b : Bank) : Option acc_t :=
  s.multiplier.map fun m =>
    { x := (getX b : ℚ) * m * GRAVITY
      y := (getY b : ℚ) * m * GRAVITY
      z := (getZ b : ℚ) * m * GRAVITY }

/-- The invariant of the data model: the cached multiplier is assigned and
matches the cached range through the documented table. -/
def multiplierMatchesRange (s : State) : Prop :=
  s.multiplier = some (multiplierOf s.range)

/-- The bit slot of the enable register `INT_SET_0` owned by each axis in
`enableActiveInterrupt`. -/
def axisBit : axis_t → Nat
  | .AXIS_X => 0
  | .AXIS_Y => 1
  | .AXIS_Z => 2

/-- A register bank whose data-rate register carries a nonzero reserved
(low-power) bit, used to exercise `setDataRate`. -/
def bankC3 : Bank := fun r => if r = Reg.BW_RATE then 0x10 else 0

/-- A register bank whose part-ID register reads a value other than the
identity constant the source compares against. -/
def bankBadId : Bank := fun r => if r = Reg.PARTID then 0x13 else 0

/-- A register bank whose motion-status register carries the single-tap
flag. -/
def bankTapTrigger : Bank := fun r => if r = Reg.MOTION_INT then 32 else 0

/-- A masked read-modify-write whose ORed-in code lies outside the kept mask
leaves the masked part unchanged. -/
theorem and_or_cancel (x c m : Nat) (hc : c &&& m = 0) :
    ((x &&& m) ||| c) &&& m = x &&& m := by
  apply Nat.eq_of_testBit_eq
  intro i
  have h : (c &&& m).testBit i = false := by rw [hc]; exact Nat.zero_testBit i
  rw [Nat.testBit_and] at h
  rw [Nat.testBit_and, Nat.testBit_or, Nat.testBit_and]
  cases hm : m.testBit i
  · simp
  · rw [hm] at h
    simp at h
    simp [h]

/-- C1: for each of the four supported ranges, `setRange` sets the cached
conversion multiplier to the documented per-range table constant, and for
every raw 16-bit register word the x, y, z outputs of `getAcceleration`
equal that raw value (read as a signed 16-bit integer) multiplied by the
cached multiplier times the gravity constant, with no other term. -/
theorem setRange_multiplier_and_linear_scaling (r : range_t) (s : State) (b bAcc : Bank) :
    ((setRange r s b).1.multiplier = some (multiplierOf r))
    ∧ getAcceleration (setRange r s b).1 bAcc =
        some
          { x := (toInt16 (bAcc Reg.ACC_X) : ℚ) * multiplierOf r * GRAVITY
            y := (toInt16 (bAcc Reg.ACC_Y) : ℚ) * multiplierOf r * GRAVITY
            z := (toInt16 (bAcc Reg.ACC_Z) : ℚ) * multiplierOf r * GRAVITY } := by
  cases r <;>
    simp [setRange, getAcceleration, multiplierOf, getX, getY, getZ, readRegister16]

/-- C2: the claim that the cached multiplier matches the cached range at
every point from construction onward fails on the I2C constructor, which
assigns `_range` but never assigns `_multiplier`; the SPI constructor and
`setRange` do establish the invariant, so the I2C constructor is the slip. -/
theorem i2c_constructor_leaves_multiplier_unset :
    (mkI2C 1).multiplier = none
    ∧ ¬ multiplierMatchesRange (mkI2C 1)
    ∧ multiplierMatchesRange (mkSPI 13 12 11 10 1)
    ∧ ∀ (r : range_t) (s : State) (b : Bank), multiplierMatchesRange (setRange r s b).1 := by
  refine ⟨rfl, ?_, ?_, ?_⟩
  · simp [multiplierMatchesRange, mkI2C]
  · simp [multiplierMatchesRange, mkSPI, multiplierOf]
  · intro r s b
    cases r <;> simp [multiplierMatchesRange, setRange, multiplierOf]

/-- C3 counterexample: `setDataRate` performs a plain write of the data-rate
code, so a reserved bit outside the 4-bit data-rate field (here bit 4 of the
prior register content `0x10`) is not preserved, refuting the claim that all
five listed setters satisfy `new & ~field_mask = old & ~field_mask`. -/
theorem setDataRate_clobbers_reserved_bits :
    ¬ (setDataRate 0 bankC3 Reg.BW_RATE &&& 0xF0 = bankC3 Reg.BW_RATE &&& 0xF0) := by
  decide

/-- C3 amended: `setRange`, `setResolution` and `setMode` preserve every
register bit outside their field masks (`0x03`, `0x0C` and `0xC0`); the
data-rate setter instead overwrites the whole register with the new code,
and the interrupt-latch setter keeps only the low nibble of the prior
content (clearing the upper nibble, which lies outside its 4-bit mode
field) before ORing in the mode code. -/
theorem rmw_setters_frame_effects (r : range_t) (res : res_t) (m : pwrMode_t)
    (dr : dataRate_t) (im : intMode_t) (s : State) (b : Bank) :
    ((setRange r s b).2 Reg.RES_RANGE &&& 0xFC = b Reg.RES_RANGE &&& 0xFC)
    ∧ ((setResolution res s b).2 Reg.RES_RANGE &&& 0xF3 = b Reg.RES_RANGE &&& 0xF3)
    ∧ ((setMode m s b).2 Reg.PWR_MODE_BW &&& 0x3F = b Reg.PWR_MODE_BW &&& 0x3F)
    ∧ (setDataRate dr b Reg.BW_RATE = dr.val)
    ∧ (setInterruptLatch im b Reg.INT_LATCH = (b Reg.INT_LATCH &&& 0x0F) ||| im.val) := by
  refine ⟨?_, ?_, ?_, rfl, rfl⟩
  · cases r <;>
      exact and_or_cancel (b Reg.RES_RANGE) _ 0xFC (by decide)
  · cases res <;>
      exact and_or_cancel (b Reg.RES_RANGE) _ 0xF3 (by decide)
  · cases m <;>
      exact and_or_cancel (b Reg.PWR_MODE_BW) _ 0x3F (by decide)

/-- C9: `swapPolarity` XOR-toggles exactly the bit selected by its argument
in the polarity-swap register, so calling it twice with the same argument
restores every register of the bank to its value before the first call. -/
theorem swapPolarity_involution (p : pol_t) (b : Bank) :
    (∀ r : Reg, swapPolarity p (swapPolarity p b) r = b r)
    ∧ swapPolarity p b Reg.SWAP_POLARITY = b Reg.SWAP_POLARITY ^^^ (1 <<< p.bit) := by
  constructor
  · intro r
    by_cases h : r = Reg.SWAP_POLARITY
    · subst h
      simp [swapPolarity, writeRegister, readRegister, Nat.xor_assoc]
    · simp [swapPolarity, writeRegister, readRegister, h]
  · simp [swapPolarity, writeRegister, readRegister]

/-- C4: `begin` succeeds exactly when the part-ID register reads the
identity constant `0x00` the source compares against; on failure no
register is written, and on success exactly the power/bandwidth register
(default `0x14`) and the output-data-rate register (default 1000 Hz code)
are written. -/
theorem begin_identity_check_and_writes (b : Bank) :
    ((begin b).1 = true ↔ b Reg.PARTID = 0x00)
    ∧ (b Reg.PARTID ≠ 0x00 → (begin b).2 = b)
    ∧ (b Reg.PARTID = 0x00 → ∀ r : Reg,
        (begin b).2 r =
          if r = Reg.ODR then MSA300_DATARATE_1000_HZ
          else if r = Reg.PWR_MODE_BW then 0x14
          else b r) := by
  by_cases h : b Reg.PARTID = 0x00
  · refine ⟨by simp [begin, readRegister, h], fun hne => absurd h hne, fun _ r => ?_⟩
    simp [begin, readRegister, h, writeRegister]
  · refine ⟨by simp [begin, readRegister, h], fun _ => ?_, fun h0 => absurd h0 h⟩
    simp [begin, readRegister, h]

/-- C4 witness: `begin` evaluated on a bank whose part-ID register reads the
identity constant and on one where it reads `0x13`. -/
theorem begin_identity_check_and_writes_witness :
    (begin zeroBank).1 = true
    ∧ (begin zeroBank).2 Reg.ODR = MSA300_DATARATE_1000_HZ
    ∧ (begin zeroBank).2 Reg.PWR_MODE_BW = 0x14
    ∧ (begin bankBadId).2 = bankBadId := by
  have h1 := begin_identity_check_and_writes zeroBank
  have h2 := begin_identity_check_and_writes bankBadId
  refine ⟨h1.1.mpr rfl, ?_, ?_, h2.2.1 (by decide)⟩
  · simpa using h1.2.2 rfl Reg.ODR
  · simpa using h1.2.2 rfl Reg.PWR_MODE_BW

/-- C5 counterexample: after enabling the new-data interrupt on pin 1 from
an all-zero bank, `clearInterrupts` leaves the new-data map register
`INT_MAP_1` nonzero, so it does not zero all of the interrupt map
registers. -/
theorem clearInterrupts_leaves_int_map_1 :
    ¬ (clearInterrupts (enableNewDataInterrupt 1 zeroBank) Reg.INT_MAP_1 = 0) := by
  decide

/-- C5 amended: `clearInterrupts` unconditionally writes zero to exactly
five registers, namely the two interrupt-enable registers and the map
registers `INT_MAP_0`, `INT_MAP_2_1` and `INT_MAP_2_2`, leaving every other
register — including the new-data map register `INT_MAP_1` — unchanged;
because both enable registers are zeroed, every enable bit set by any
`enable*Interrupt` call, including the new-data enable bit in `INT_SET_1`,
is cleared, while the new-data mapping bit survives in `INT_MAP_1`. -/
theorem clearInterrupts_zeroes_five_registers (b : Bank) :
    (∀ r : Reg, clearInterrupts b r =
       if r = Reg.INT_SET_0 ∨ r = Reg.INT_SET_1 ∨ r = Reg.INT_MAP_0
          ∨ r = Reg.INT_MAP_2_1 ∨ r = Reg.INT_MAP_2_2 then 0 else b r)
    ∧ clearInterrupts (enableNewDataInterrupt 1 b) Reg.INT_SET_1 = 0
    ∧ clearInterrupts (enableNewDataInterrupt 1 b) Reg.INT_MAP_1 = b Reg.INT_MAP_1 ||| (1 <<< 0) := by
  refine ⟨fun r => ?_, rfl, rfl⟩
  cases r <;> rfl

/-- C6: the duration setters saturate out-of-domain inputs to the domain
bounds — `setFreefallDuration 1` writes the encoding `0` of the 2 ms floor,
`setFreefallDuration 1000` writes the encoding `255` of the 512 ms ceiling,
and `setActiveDuration 10` writes the encoding `4` of the 5 ms ceiling —
while in-domain inputs are encoded unchanged, as `(d - 2) / 2` for a
freefall duration and `d - 1` for an active duration. -/
theorem duration_setters_clamp (b : Bank) (d da : Nat) :
    setFreefallDuration 1 b Reg.FREEFALL_DUR = 0
    ∧ setFreefallDuration 1000 b Reg.FREEFALL_DUR = 255
    ∧ setActiveDuration 10 b Reg.ACTIVE_DUR = 4
    ∧ (2 ≤ d → d ≤ 512 → setFreefallDuration d b Reg.FREEFALL_DUR = (d - 2) / 2)
    ∧ (1 ≤ da → da ≤ 5 → setActiveDuration da b Reg.ACTIVE_DUR = da - 1) := by
  refine ⟨rfl, rfl, rfl, ?_, ?_⟩
  · intro h1 h2
    have hd : clampNat d 2 512 = d := by
      simp only [clampNat, Nat.min_def, Nat.max_def]
      split_ifs <;> omega
    have hm : min ((d - 2) / 2) 256 = (d - 2) / 2 := min_eq_left (by omega)
    simp [setFreefallDuration, writeRegister, hd, hm]
  · intro h1 h2
    have hv : clampNat ((da + 255) % 256) 0 4 = da - 1 := by
      simp only [clampNat, Nat.min_def, Nat.max_def]
      split_ifs <;> omega
    simp [setActiveDuration, writeRegister, hv]

/-- C6 witness: the in-domain encodings evaluated at concrete durations. -/
theorem duration_setters_clamp_witness :
    setFreefallDuration 100 zeroBank Reg.FREEFALL_DUR = 49
    ∧ setActiveDuration 3 zeroBank Reg.ACTIVE_DUR = 2 := by
  have h := duration_setters_clamp zeroBank 100 3
  exact ⟨h.2.2.2.1 (by decide) (by decide), h.2.2.2.2 (by decide) (by decide)⟩

/-- C7: evaluation of the spec-resolved freefall-hysteresis setter at a
concrete input: 250 mg in 125 mg steps is 2, ORed with the mode bit gives
the encoded byte `0x0A`, the value the source intends to write but omits
from its register-write call. -/
theorem freefallHysteresis_modelled_write_value :
    setFreefallHysteresis 1 250 zeroBank Reg.FREEFALL_HY = 10 := by
  decide

/-- C8: for every pin index in {1, 2}, each `enable*Interrupt` call ORs
exactly one bit into the interrupt-pin-map register its pin index selects
and exactly one bit into the corresponding interrupt-enable register,
leaving all other bits of those registers and all other registers
unchanged; the axis-scoped `enableActiveInterrupt` sets only the enable bit
slot owned by the named axis, leaving the other two axis bits untouched. -/
theorem enableInterrupt_single_bit_effects (pin : Nat) (a : axis_t) (b : Bank)
    (hp : pin = 1 ∨ pin = 2) :
    (∀ r : Reg, enableActiveInterrupt a pin b r =
       if r = (if pin = 1 then Reg.INT_MAP_0 else Reg.INT_MAP_2_1) then b r ||| (1 <<< 2)
       else if r = Reg.INT_SET_0 then b r ||| (1 <<< axisBit a)
       else b r)
    ∧ (∀ r : Reg, enableFreefallInterrupt pin b r =
       if r = (if pin = 1 then Reg.INT_MAP_0 else Reg.INT_MAP_2_1) then b r ||| (1 <<< 0)
       else if r = Reg.INT_SET_1 then b r ||| (1 <<< 3)
       else b r)
    ∧ (∀ r : Reg, enableOrientationInterrupt pin b r =
       if r = (if pin = 1 then Reg.INT_MAP_0 else Reg.INT_MAP_2_1) then b r ||| (1 <<< 6)
       else if r = Reg.INT_SET_0 then b r ||| (1 <<< 6)
       else b r)
    ∧ (∀ r : Reg, enableSingleTapInterrupt pin b r =
       if r = (if pin = 1 then Reg.INT_MAP_0 else Reg.INT_MAP_2_1) then b r ||| (1 <<< 5)
       else if r = Reg.INT_SET_0 then b r ||| (1 <<< 5)
       else b r)
    ∧ (∀ r : Reg, enableDoubleTapInterrupt pin b r =
       if r = (if pin = 1 then Reg.INT_MAP_0 else Reg.INT_MAP_2_1) then b r ||| (1 <<< 4)
       else if r = Reg.INT_SET_0 then b r ||| (1 <<< 4)
       else b r)
    ∧ (∀ r : Reg, enableNewDataInterrupt pin b r =
       if r = Reg.INT_MAP_1 then b r ||| (1 <<< (if pin = 1 then 0 else 7))
       else if r = Reg.INT_SET_1 then b r ||| (1 <<< 4)
       else b r) := by
  rcases hp with h | h <;> subst h <;> cases a <;>
    refine ⟨fun r => ?_, fun r => ?_, fun r => ?_, fun r => ?_, fun r => ?_, fun r => ?_⟩ <;>
    cases r <;> rfl

/-- C8 witness: the single-bit effects evaluated at pin 1 with axis Y and at
pin 2 for the new-data interrupt, from an all-zero bank. -/
theorem enableInterrupt_single_bit_effects_witness :
    enableActiveInterrupt axis_t.AXIS_Y 1 zeroBank Reg.INT_MAP_0 = 4
    ∧ enableActiveInterrupt axis_t.AXIS_Y 1 zeroBank Reg.INT_SET_0 = 2
    ∧ enableNewDataInterrupt 2 zeroBank Reg.INT_MAP_1 = 128 := by
  have h1 := enableInterrupt_single_bit_effects 1 axis_t.AXIS_Y zeroBank (Or.inl rfl)
  have h2 := enableInterrupt_single_bit_effects 2 axis_t.AXIS_Y zeroBank (Or.inr rfl)
  refine ⟨?_, ?_, ?_⟩
  · simpa [zeroBank] using h1.1 Reg.INT_MAP_0
  · simpa [zeroBank, axisBit] using h1.1 Reg.INT_SET_0
  · simpa [zeroBank] using h2.2.2.2.2.2 Reg.INT_MAP_1

/-- C10: `checkInterrupts` assigns the tap/activity detail record from the
tap/activity-status register exactly when at least one of the activity,
single-tap or double-tap flags decodes to true; when all three are false
the detail member keeps its indeterminate initial value (`none`), and a
bank whose three status registers are all zero yields a snapshot with every
top-level flag false. -/
theorem checkInterrupts_detail_gating (b : Bank) :
    ((checkInterrupts b).activeInt = false → (checkInterrupts b).sTapInt = false →
       (checkInterrupts b).dTapInt = false → (checkInterrupts b).intStatus = none)
    ∧ (((checkInterrupts b).activeInt = true ∨ (checkInterrupts b).sTapInt = true ∨
         (checkInterrupts b).dTapInt = true) → (checkInterrupts b).intStatus ≠ none)
    ∧ (b Reg.MOTION_INT = 0 → b Reg.DATA_INT = 0 → b Reg.TAP_ACTIVE_STATUS = 0 →
        checkInterrupts b =
          { orientInt := false
            sTapInt := false
            dTapInt := false
            activeInt := false
            freefallInt := false
            newdataInt := false
            intStatus := none }) := by
  refine ⟨?_, ?_, ?_⟩
  · intro h1 h2 h3
    simp [checkInterrupts, readRegister] at h1 h2 h3 ⊢
    simp [h1, h2, h3]
  · intro h
    simp [checkInterrupts, readRegister] at h ⊢
    rcases h with h | h | h <;> simp [h]
  · intro h1 h2 h3
    simp [checkInterrupts, readRegister, h1, h2, h3]

/-- C10 witness: the gating evaluated on the all-zero bank and on a bank
whose motion-status register carries the single-tap flag. -/
theorem checkInterrupts_detail_gating_witness :
    (checkInterrupts zeroBank).intStatus = none
    ∧ checkInterrupts zeroBank =
        { orientInt := false
          sTapInt := false
          dTapInt := false
          activeInt := false
          freefallInt := false
          newdataInt := false
          intStatus := none }
    ∧ (checkInterrupts bankTapTrigger).intStatus ≠ none := by
  have h0 := checkInterrupts_detail_gating zeroBank
  have h1 := checkInterrupts_detail_gating bankTapTrigger
  exact ⟨h0.1 (by decide) (by decide) (by decide), h0.2.2 rfl rfl rfl,
    h1.2.1 (Or.inr (Or.inl (by decide)))⟩

end MSA300
